import Mathlib

/-!
Shallow embedding of the wishlist browser extension's core logic:
the price-discovery badge ranker
(src/apps/plasmo/src/components/price-discovery-badges.tsx) and the
wishlist synchronizer (src/apps/plasmo/src/components/main.tsx and the
get-wishlist-data background message handler).

JavaScript numbers are idealized as rationals (ℚ); the one place the
source can divide by zero (the volatility computation) is embedded with
an explicit branch reproducing the IEEE Infinity/NaN comparison outcome.
JavaScript truthiness tests on numbers (`if (targetPrice && ...)`) are
embedded as explicit `≠ 0` tests, and on optional strings as explicit
none-or-empty tests.
-/

namespace WishCdp

/-! ## Price-discovery badge ranker -/

/-- One point of a price history, as passed to `PriceDiscoveryBadges`
(`{ date: string; price: number }`). -/
structure PricePoint where
  date : String
  price : ℚ
deriving DecidableEq, Repr

/-- A computed badge, mirroring the object literals pushed onto `badges`
in `PriceDiscoveryBadges` (the `icon` component is embedded by its name). -/
structure BadgeInfo where
  key : String
  variant : String
  icon : String
  text : String
  className : String
  priority : Nat
deriving DecidableEq, Repr

/-- The props of `PriceDiscoveryBadges`; `maxBadges` defaults to 2 at the
call site. -/
structure BadgeInput where
  currentPrice : ℚ
  previousPrice : Option ℚ
  priceHistory : List PricePoint
  targetPrice : Option ℚ
  maxBadges : Nat
deriving DecidableEq, Repr

/-- JavaScript `xs.slice(-n)`: the last `n` elements (all of them when the
list is shorter than `n`). -/
def takeLast (n : Nat) (xs : List α) : List α := xs.drop (xs.length - n)

/-- Embeds `Math.max(...prices)` on a list (only used on nonempty lists in the
source; `0` stands in for the empty case). -/
def listMax : List ℚ → ℚ
  | [] => 0
  | x :: xs => xs.foldl max x

/-- Embeds `Math.min(...prices)` on a list (only used on nonempty lists in the
source; `0` stands in for the empty case). -/
def listMin : List ℚ → ℚ
  | [] => 0
  | x :: xs => xs.foldl min x

/-- JavaScript `q.toFixed(1)`: render with one decimal digit, rounding the
magnitude to the nearest tenth. -/
def toFixed1 (q : ℚ) : String :=
  let n : ℤ := round (|q| * 10)
  let s := toString (n / 10) ++ "." ++ toString (n % 10)
  if q < 0 then "-" ++ s else s

/-- The "Target Hit" badge object literal (priority 1). -/
def targetBadge : BadgeInfo :=
  { key := "target-reached", variant := "default", icon := "Target",
    text := "Target Hit",
    className := "bg-emerald-100 text-emerald-800 border-emerald-300",
    priority := 1 }

/-- The "Deal!" badge object literal (priority 2). -/
def dealBadge : BadgeInfo :=
  { key := "deal-alert", variant := "default", icon := "Target",
    text := "Deal!",
    className := "bg-blue-100 text-blue-800 border-blue-300 animate-pulse",
    priority := 2 }

/-- The price-change badge object literal (priority 3), computed from
`currentPrice` and `previousPrice` exactly as in the source:
`change = current - previous`, percent text `toFixed(1)` of
`change / previous * 100`, a `+` prefix and red styling on an increase,
green styling on a decrease. -/
def priceChangeBadge (currentPrice previousPrice : ℚ) : BadgeInfo :=
  let change := currentPrice - previousPrice
  let isDecrease : Bool := decide (change < 0)
  let changePercent := toFixed1 (change / previousPrice * 100)
  { key := "price-change",
    variant := if isDecrease then "default" else "destructive",
    icon := if isDecrease then "TrendingDown" else "TrendingUp",
    text := (if isDecrease then "" else "+") ++ changePercent ++ "%",
    className := if isDecrease then "bg-green-100 text-green-800 border-green-300"
      else "bg-red-100 text-red-800 border-red-300",
    priority := 3 }

/-- The "Volatile" badge object literal (priority 4). -/
def volatilityBadge : BadgeInfo :=
  { key := "volatility", variant := "outline", icon := "AlertTriangle",
    text := "Volatile",
    className := "text-orange-600 border-orange-300",
    priority := 4 }

/-- First `if` of `PriceDiscoveryBadges`:
`if (targetPrice && currentPrice <= targetPrice)` — JS truthiness makes a
`targetPrice` of 0 (or an absent one) skip the badge. -/
def targetReachedBadges (i : BadgeInput) : List BadgeInfo :=
  match i.targetPrice with
  | some t => if t ≠ 0 ∧ i.currentPrice ≤ t then [targetBadge] else []
  | none => []

/-- Embeds `priceHistory.slice(-5).map((p) => p.price)`. -/
def recentPrices (i : BadgeInput) : List ℚ :=
  (takeLast 5 i.priceHistory).map PricePoint.price

/-- Embeds `recentPrices.reduce((a, b) => a + b, 0) / recentPrices.length`. -/
def avgRecentPrice (i : BadgeInput) : ℚ :=
  (recentPrices i).sum / ((recentPrices i).length : ℚ)

/-- Second `if` of `PriceDiscoveryBadges`: the deal-alert block, guarded by
`priceHistory.length >= 3`, firing iff
`currentPrice <= avgRecentPrice * 0.9`. -/
def dealAlertBadges (i : BadgeInput) : List BadgeInfo :=
  if 3 ≤ i.priceHistory.length then
    if i.currentPrice ≤ avgRecentPrice i * (9 / 10) then [dealBadge] else []
  else []

/-- Third `if` of `PriceDiscoveryBadges`:
`if (previousPrice && previousPrice !== currentPrice)` — JS truthiness
makes a `previousPrice` of 0 (or an absent one) skip the badge. -/
def priceChangeBadges (i : BadgeInput) : List BadgeInfo :=
  match i.previousPrice with
  | some p => if p ≠ 0 ∧ p ≠ i.currentPrice then [priceChangeBadge i.currentPrice p] else []
  | none => []

/-- Embeds `priceHistory.slice(-7).map((p) => p.price)`. -/
def last7Prices (i : BadgeInput) : List ℚ :=
  (takeLast 7 i.priceHistory).map PricePoint.price

/-- The JavaScript comparison `((mx - mn) / mn) * 100 > 15` as evaluated
with IEEE arithmetic: when `mn = 0` the quotient is `Infinity` (comparison
true) when `mx - mn > 0`, `NaN` or `-Infinity` (comparison false)
otherwise; when `mn ≠ 0` it is exact rational arithmetic. -/
def volGuard (mx mn : ℚ) : Bool :=
  if mn = 0 then decide (0 < mx - mn)
  else decide (15 < (mx - mn) / mn * 100)

/-- Fourth `if` of `PriceDiscoveryBadges`: the volatility block, guarded by
`priceHistory.length >= 7`. -/
def volatilityBadges (i : BadgeInput) : List BadgeInfo :=
  if 7 ≤ i.priceHistory.length then
    if volGuard (listMax (last7Prices i)) (listMin (last7Prices i)) then
      [volatilityBadge]
    else []
  else []

/-- The `badges` array after the four pushes, in source push order. -/
def emittedBadges (i : BadgeInput) : List BadgeInfo :=
  targetReachedBadges i ++ dealAlertBadges i ++ priceChangeBadges i ++ volatilityBadges i

/-- The comparator `(a, b) => a.priority - b.priority` as an ordering. -/
def badgeLE (a b : BadgeInfo) : Prop := a.priority ≤ b.priority

instance : DecidableRel badgeLE := fun a b =>
  inferInstanceAs (Decidable (a.priority ≤ b.priority))

instance : IsTotal BadgeInfo badgeLE :=
  ⟨fun a b => Nat.le_total a.priority b.priority⟩

instance : IsTrans BadgeInfo badgeLE :=
  ⟨fun _ _ _ h1 h2 => Nat.le_trans h1 h2⟩

/-- Embeds `badges.sort((a, b) => a.priority - b.priority).slice(0, maxBadges)`
(a stable sort, as ECMAScript guarantees). -/
def prioritizedBadges (i : BadgeInput) : List BadgeInfo :=
  (List.insertionSort badgeLE (emittedBadges i)).take i.maxBadges

/-- The component's return value: `none` embeds `return null` when
`prioritizedBadges.length === 0`; otherwise the rendered badge list. -/
def renderBadges (i : BadgeInput) : Option (List BadgeInfo) :=
  if prioritizedBadges i = [] then none else some (prioritizedBadges i)

/-! ## Wishlist synchronizer: data model -/

/-- The error taxonomy of the spec, mapped onto the handler's failure
paths: a missing `userId` in the request body ("User not found") is a
`ValidationError`; `.single()` finding zero wishlist rows is the
`NotFoundError`; a membership row whose product cannot be resolved (which
would make `item.products.id` throw inside the formatting map) is a
`RemoteShapeError`. -/
inductive SyncError
  | ValidationError
  | NotFoundError
  | RemoteShapeError
deriving DecidableEq, Repr

/-- A row of the `prices` table as selected by the handler
(`amount, source_url, created_at`); timestamps are Nat epochs. -/
structure PriceEntry where
  amount : ℚ
  source_url : String
  created_at : Nat
deriving DecidableEq, Repr

/-- A row of the `products` table, with its `prices` rows embedded as the
join returns them. Nullable columns (filled in later by enrichment) are
options. -/
structure ProductRow where
  id : String
  title : String
  brand : Option String
  source_url : String
  category : Option String
  image_url : Option String
  created_at : Nat
  prices : List PriceEntry
deriving DecidableEq, Repr

/-- A row of the `wishlists` table. -/
structure WishlistRow where
  id : String
  user_id : String
deriving DecidableEq, Repr

/-- A row of the `wishlist_items` membership table. -/
structure WishlistItemRow where
  id : String
  wishlist_id : String
  product_id : String
  created_at : Nat
deriving DecidableEq, Repr

/-- The remote relational store: the three tables the synchronizer
touches. -/
structure RemoteStore where
  wishlists : List WishlistRow
  products : List ProductRow
  wishlist_items : List WishlistItemRow
deriving DecidableEq, Repr

/-- A client-side cache entry, with the field names the source uses when
it builds the formatted items. -/
structure Item where
  id : String
  wishlist_item_id : Option String
  title : String
  brand : Option String
  source_url : String
  category : Option String
  image_url : Option String
  created_at : Nat
  price : Option ℚ
  prices : List PriceEntry
deriving DecidableEq, Repr

/-- The persisted local cache: the `wishlistItems` and `wishlistId`
storage keys. -/
structure LocalCache where
  wishlistItems : List Item
  wishlistId : Option String
deriving DecidableEq, Repr

/-- Embeds `item.products.prices?.[0]?.amount || null`: the first entry's amount,
except that JS `||` coalesces a falsy amount — in particular `0` — to
`null`. -/
def jsPriceField (prices : List PriceEntry) : Option ℚ :=
  match prices.head? with
  | none => none
  | some e => if e.amount = 0 then none else some e.amount

/-- One step of the handler's `(itemsData || []).map(...)`: resolve the
joined product row and build the formatted cache entry. `none` embeds the
TypeError thrown when the join produced no product. -/
def formatItem (store : RemoteStore) (row : WishlistItemRow) : Option Item :=
  (store.products.find? (fun p => decide (p.id = row.product_id))).map fun p =>
    { id := p.id
      wishlist_item_id := some row.id
      title := p.title
      brand := p.brand
      source_url := p.source_url
      category := p.category
      image_url := p.image_url
      created_at := row.created_at
      price := jsPriceField p.prices
      prices := p.prices }

/-- The whole formatting map; `none` when any entry fails to format. -/
def formatAll (store : RemoteStore) : List WishlistItemRow → Option (List Item)
  | [] => some []
  | r :: rs =>
    match formatItem store r, formatAll store rs with
    | some it, some its => some (it :: its)
    | _, _ => none

/-- Embeds `.order("created_at", { ascending: false })` on membership rows. -/
def rowLE (a b : WishlistItemRow) : Prop := b.created_at ≤ a.created_at

instance : DecidableRel rowLE := fun a b =>
  inferInstanceAs (Decidable (b.created_at ≤ a.created_at))

instance : IsTotal WishlistItemRow rowLE :=
  ⟨fun a b => Nat.le_total b.created_at a.created_at⟩

instance : IsTrans WishlistItemRow rowLE :=
  ⟨fun _ _ _ h1 h2 => Nat.le_trans h2 h1⟩

/-- The `get-wishlist-data` background handler (`refresh`): resolve the
user's wishlist (`.limit(1).single()` — zero rows is an error), fetch the
membership rows ordered by creation time descending, persist the wishlist
id, then format and persist the items. The wishlist id is written before
the formatting map runs, exactly as in the source, so a formatting
failure still leaves the id updated; the zero-wishlists failure happens
before any write. -/
def getWishlistData (store : RemoteStore) (userId : String) (cache : LocalCache) :
    Except SyncError Unit × LocalCache :=
  if userId = "" then (.error .ValidationError, cache)
  else
    match (store.wishlists.filter (fun w => decide (w.user_id = userId))).head? with
    | none => (.error .NotFoundError, cache)
    | some w =>
      let rows := List.insertionSort rowLE
        (store.wishlist_items.filter (fun r => decide (r.wishlist_id = w.id)))
      let cache1 := { cache with wishlistId := some w.id }
      match formatAll store rows with
      | none => (.error .RemoteShapeError, cache1)
      | some items => (.ok (), { cache1 with wishlistItems := items })

/-! ## Wishlist synchronizer: delete and add -/

/-- The remote calls the popup can issue, recorded as a trace so that "no
network request is made" is expressible. -/
inductive RemoteCall
  | deleteWishlistItem (id : String)
  | upsertProduct (title source_url : String)
  | upsertWishlistItem (wishlist_id product_id : String)
  | selectProduct (id : String)
  | processPageData (itemId : String)
deriving DecidableEq, Repr

/-- Outcome of `deleteItem`, keyed to the source's three exits. -/
inductive DeleteResult
  | missingRef
  | remoteError
  | ok
deriving DecidableEq, Repr

/-- JS truthiness of an optional string: `null`/`undefined` and `""` are
falsy. -/
def jsFalsyStr : Option String → Bool
  | none => true
  | some s => decide (s = "")

/-- Embeds `deleteItem(itemId)`: look the item up in the local cache; if it (or
its `wishlist_item_id`) is missing, surface the missing-reference error
without touching anything; otherwise delete the remote membership row
first and filter the local entry out only when the remote delete
succeeded (`remoteOk` embeds the remote store's availability). Returns
(outcome, remote store, local items, trace of remote calls). -/
def deleteItem (remoteOk : Bool) (store : RemoteStore) (items : List Item)
    (itemId : String) : DeleteResult × RemoteStore × List Item × List RemoteCall :=
  match items.find? (fun it => decide (it.id = itemId)) with
  | none => (.missingRef, store, items, [])
  | some it =>
    match it.wishlist_item_id with
    | none => (.missingRef, store, items, [])
    | some wid =>
      if wid = "" then (.missingRef, store, items, [])
      else if remoteOk then
        (.ok,
          { store with wishlist_items :=
              store.wishlist_items.filter (fun r => decide (r.id ≠ wid)) },
          items.filter (fun i2 => decide (i2.id ≠ itemId)),
          [.deleteWishlistItem wid])
      else (.remoteError, store, items, [.deleteWishlistItem wid])

/-- Embeds `cleanUrl` (lib/utils): strip the query string, keep the fragment
(`new URI(url).query("")`). -/
def cleanUrl (url : String) : String :=
  let cs := url.toList
  String.mk (cs.takeWhile (fun c => c ≠ '?') ++
    ((cs.dropWhile (fun c => c ≠ '?')).dropWhile (fun c => c ≠ '#')))

/-- The popup state that `addCurrentPage` reads and writes: the cached
items, the persisted wishlist id, the debounce timestamp `lastAddTime`,
the surfaced error message, and the pending-enrichment id set. -/
structure UIState where
  items : List Item
  wishlistId : Option String
  lastAddTime : Nat
  errorMsg : Option String
  processingItems : List String
deriving DecidableEq, Repr

/-- Fresh id for an inserted product row (the store generates ids; any
injective scheme serves the embedding). -/
def freshProductId (store : RemoteStore) : String :=
  "product-" ++ toString store.products.length

/-- Fresh id for an inserted membership row. -/
def freshRowId (store : RemoteStore) : String :=
  "wishlist-item-" ++ toString store.wishlist_items.length

/-- Embeds `products.upsert({title, source_url}, { onConflict: "source_url",
ignoreDuplicates: false })`: merge-duplicates semantics, i.e.
`INSERT ... ON CONFLICT (source_url) DO UPDATE`. A conflicting row is
updated in place and returned — no unique-violation error is raised for
this conflict target. -/
def upsertProduct (store : RemoteStore) (title url : String) (now : Nat) :
    ProductRow × RemoteStore :=
  match store.products.find? (fun p => decide (p.source_url = url)) with
  | some p =>
    let p' := { p with title := title }
    (p', { store with products :=
        store.products.map (fun q => if q.id = p.id then p' else q) })
  | none =>
    let p : ProductRow :=
      { id := freshProductId store, title := title, brand := none, source_url := url,
        category := none, image_url := none, created_at := now, prices := [] }
    (p, { store with products := store.products ++ [p] })

/-- Embeds `wishlist_items.upsert({wishlist_id, product_id}, { onConflict:
"wishlist_id,product_id", ignoreDuplicates: false })`: merge-duplicates
semantics. On a duplicate membership the existing row is returned
unchanged and no error — in particular no 23505 unique violation — is
produced, which is what makes the source's "Item already exists in your
wishlist" branch unreachable through this call. -/
def upsertWishlistItem (store : RemoteStore) (wid pid : String) (now : Nat) :
    WishlistItemRow × RemoteStore :=
  match store.wishlist_items.find?
      (fun r => decide (r.wishlist_id = wid ∧ r.product_id = pid)) with
  | some r => (r, store)
  | none =>
    let r : WishlistItemRow :=
      { id := freshRowId store, wishlist_id := wid, product_id := pid, created_at := now }
    (r, { store with wishlist_items := store.wishlist_items ++ [r] })

/-- Embeds `addCurrentPage`: debounce (return unchanged, no calls, when invoked
within 1000ms of `lastAddTime`), record the invocation time, check the
wishlist id (JS truthiness), read the active tab's extraction result
(`tab = none` embeds both extraction failure paths), upsert the product
by cleaned URL, upsert the membership row, re-select the product details,
prepend the optimistic cache entry with `price := none` and empty
history, mark it pending enrichment, and fire the enrichment call only
for a product created within the last second. Returns (remote store,
popup state, trace of remote calls). -/
def addCurrentPage (store : RemoteStore) (s : UIState) (now : Nat)
    (tab : Option (String × String)) : RemoteStore × UIState × List RemoteCall :=
  if (now : ℤ) - (s.lastAddTime : ℤ) < 1000 then (store, s, [])
  else
    let s1 := { s with lastAddTime := now }
    match s.wishlistId with
    | none => (store, { s1 with errorMsg := some "No wishlist found. Please try again." }, [])
    | some wid =>
      if wid = "" then
        (store, { s1 with errorMsg := some "No wishlist found. Please try again." }, [])
      else
        let s2 := { s1 with errorMsg := none }
        match tab with
        | none =>
          let msg := "Failed to extract page content. Please try again."
          (store, { s2 with errorMsg := some msg }, [])
        | some (title, url) =>
          let cleaned := cleanUrl url
          let pr := upsertProduct store title cleaned now
          let p := pr.1
          let store1 := pr.2
          let isNewProduct : Bool := decide ((now : ℤ) - 1000 < (p.created_at : ℤ))
          let wr := upsertWishlistItem store1 wid p.id now
          let row := wr.1
          let store2 := wr.2
          let newItem : Item :=
            { id := p.id, wishlist_item_id := some row.id, title := p.title,
              brand := p.brand, source_url := p.source_url, category := p.category,
              image_url := p.image_url, created_at := row.created_at,
              price := none, prices := [] }
          let calls := [RemoteCall.upsertProduct title cleaned,
              RemoteCall.upsertWishlistItem wid p.id,
              RemoteCall.selectProduct p.id] ++
            (if isNewProduct then [RemoteCall.processPageData p.id] else [])
          (store2,
            { s2 with
              items := newItem :: s2.items,
              processingItems := p.id :: s2.processingItems },
            calls)

/-! ## Concrete example inputs used by the theorems -/

/-- Five history points at price 100 with `currentPrice = 89`. -/
def dealEx89 : BadgeInput :=
  { currentPrice := 89, previousPrice := none,
    priceHistory := [⟨"d1", 100⟩, ⟨"d2", 100⟩, ⟨"d3", 100⟩, ⟨"d4", 100⟩, ⟨"d5", 100⟩],
    targetPrice := none, maxBadges := 2 }

/-- Five history points at price 100 with `currentPrice = 91`. -/
def dealEx91 : BadgeInput :=
  { currentPrice := 91, previousPrice := none,
    priceHistory := [⟨"d1", 100⟩, ⟨"d2", 100⟩, ⟨"d3", 100⟩, ⟨"d4", 100⟩, ⟨"d5", 100⟩],
    targetPrice := none, maxBadges := 2 }

/-- An input on which all four badge conditions qualify
(`maxBadges = 2`): target 100 ≥ 80, deal mean 100 ⇒ threshold 90 ≥ 80,
previous 100 ≠ 80, last-7 swing 30% > 15%. -/
def selAllEx : BadgeInput :=
  { currentPrice := 80, previousPrice := some 100,
    priceHistory := [⟨"d1", 100⟩, ⟨"d2", 130⟩, ⟨"d3", 100⟩, ⟨"d4", 100⟩, ⟨"d5", 100⟩,
      ⟨"d6", 100⟩, ⟨"d7", 100⟩],
    targetPrice := some 100, maxBadges := 2 }

/-- An input on which no badge condition qualifies. -/
def selNoneEx : BadgeInput :=
  { currentPrice := 100, previousPrice := none, priceHistory := [],
    targetPrice := none, maxBadges := 2 }

/-- Input with `previousPrice = 0`: set and different from `currentPrice = 10`, but
falsy in the source's guard. -/
def pcZeroEx : BadgeInput :=
  { currentPrice := 10, previousPrice := some 0, priceHistory := [],
    targetPrice := none, maxBadges := 2 }

/-- Seven history points swinging 100 → 130 (30% > 15%). -/
def volEx7 : BadgeInput :=
  { currentPrice := 100, previousPrice := none,
    priceHistory := [⟨"d1", 100⟩, ⟨"d2", 130⟩, ⟨"d3", 100⟩, ⟨"d4", 100⟩, ⟨"d5", 100⟩,
      ⟨"d6", 100⟩, ⟨"d7", 100⟩],
    targetPrice := none, maxBadges := 2 }

/-- Six history points with a 30% swing: short of the 7-point gate. -/
def volEx6 : BadgeInput :=
  { currentPrice := 100, previousPrice := none,
    priceHistory := [⟨"d1", 100⟩, ⟨"d2", 130⟩, ⟨"d3", 100⟩, ⟨"d4", 100⟩, ⟨"d5", 100⟩,
      ⟨"d6", 100⟩],
    targetPrice := none, maxBadges := 2 }

/-- Seven history points all at price 0: the last-7 minimum is 0 and so is
the maximum, so the JS volatility expression is `0/0 = NaN`. -/
def volZeroAllEx : BadgeInput :=
  { currentPrice := 0, previousPrice := none,
    priceHistory := [⟨"d1", 0⟩, ⟨"d2", 0⟩, ⟨"d3", 0⟩, ⟨"d4", 0⟩, ⟨"d5", 0⟩,
      ⟨"d6", 0⟩, ⟨"d7", 0⟩],
    targetPrice := none, maxBadges := 2 }

/-- Seven history points with minimum 0 but maximum 100: the JS
volatility expression is `Infinity`. -/
def volZeroPosEx : BadgeInput :=
  { currentPrice := 100, previousPrice := none,
    priceHistory := [⟨"d1", 0⟩, ⟨"d2", 100⟩, ⟨"d3", 100⟩, ⟨"d4", 100⟩, ⟨"d5", 100⟩,
      ⟨"d6", 100⟩, ⟨"d7", 100⟩],
    targetPrice := none, maxBadges := 2 }

/-- The one product row of `zeroAmountStore`: a single price entry of
amount 0. -/
def zeroAmountProduct : ProductRow :=
  { id := "p1", title := "Free sample", brand := none,
    source_url := "https://s/p", category := none, image_url := none,
    created_at := 0, prices := [⟨0, "https://s/p", 5⟩] }

/-- A store whose one product has a single price entry of amount 0. -/
def zeroAmountStore : RemoteStore :=
  { wishlists := [⟨"w1", "u1"⟩],
    products := [zeroAmountProduct],
    wishlist_items := [⟨"wi1", "w1", "p1", 10⟩] }

/-- The one product row of `fiveAmountStore`: a single price entry of
amount 5. -/
def fiveAmountProduct : ProductRow :=
  { id := "p1", title := "Mug", brand := none,
    source_url := "https://s/p", category := none, image_url := none,
    created_at := 0, prices := [⟨5, "https://s/p", 5⟩] }

/-- A store whose one product has a single price entry of amount 5. -/
def fiveAmountStore : RemoteStore :=
  { wishlists := [⟨"w1", "u1"⟩],
    products := [fiveAmountProduct],
    wishlist_items := [⟨"wi1", "w1", "p1", 10⟩] }

/-- The cache entry `getWishlistData fiveAmountStore "u1"` writes. -/
def fiveAmountItem : Item :=
  { id := "p1", wishlist_item_id := some "wi1", title := "Mug", brand := none,
    source_url := "https://s/p", category := none, image_url := none,
    created_at := 10, price := some 5, prices := [⟨5, "https://s/p", 5⟩] }

/-- The one product row of `dupStore`, living at the cleaned URL
`https://s/p`. -/
def dupProduct : ProductRow :=
  { id := "p1", title := "Shoes", brand := none,
    source_url := "https://s/p", category := none, image_url := none,
    created_at := 0, prices := [] }

/-- A store that already holds the membership (w1, p1) for the product at
the cleaned URL `https://s/p`. -/
def dupStore : RemoteStore :=
  { wishlists := [⟨"w1", "u1"⟩],
    products := [dupProduct],
    wishlist_items := [⟨"wi1", "w1", "p1", 0⟩] }

/-- The cache entry `getWishlistData zeroAmountStore "u1"` writes: one
price entry (amount 0) coalesced by `||` into `price := none`. -/
def zeroAmountItem : Item :=
  { id := "p1", wishlist_item_id := some "wi1", title := "Free sample", brand := none,
    source_url := "https://s/p", category := none, image_url := none,
    created_at := 10, price := none, prices := [⟨0, "https://s/p", 5⟩] }

/-- A cache entry without a resolvable `wishlist_item_id`. -/
def delItemNoRef : Item :=
  { id := "p1", wishlist_item_id := none, title := "Stale", brand := none,
    source_url := "https://s/a", category := none, image_url := none,
    created_at := 0, price := none, prices := [] }

/-- A cache entry whose membership row is `wi2`. -/
def delItemOk : Item :=
  { id := "p2", wishlist_item_id := some "wi2", title := "Live", brand := none,
    source_url := "https://s/b", category := none, image_url := none,
    created_at := 0, price := none, prices := [] }

/-- A store holding only the membership row `wi2`. -/
def delStore : RemoteStore := ⟨[], [], [⟨"wi2", "w1", "p2", 0⟩]⟩

/-- The local cache used by the delete witness. -/
def delItems : List Item := [delItemNoRef, delItemOk]

/-- Popup state with `lastAddTime = 0` and no wishlist id. -/
def debEx : UIState :=
  { items := [], wishlistId := none, lastAddTime := 0, errorMsg := none,
    processingItems := [] }

/-- Popup state holding the wishlist id `w1` with an empty cache, last add
long ago. -/
def dupState : UIState :=
  { items := [], wishlistId := some "w1", lastAddTime := 0, errorMsg := none,
    processingItems := [] }

/-- Result of `addCurrentPage` invoked at t=5000 on a page whose cleaned URL
collides with the existing product, hence with the existing membership. -/
def dupResult : RemoteStore × UIState × List RemoteCall :=
  addCurrentPage dupStore dupState 5000 (some ("Shoes", "https://s/p?utm=x"))

/-- The optimistic cache entry the duplicate add prepends. -/
def dupNewItem : Item :=
  { id := "p1", wishlist_item_id := some "wi1", title := "Shoes", brand := none,
    source_url := "https://s/p", category := none, image_url := none,
    created_at := 0, price := none, prices := [] }

/-! ## Helper lemmas about the badge components -/

@[simp] theorem targetBadge_key : targetBadge.key = "target-reached" := rfl

@[simp] theorem dealBadge_key : dealBadge.key = "deal-alert" := rfl

@[simp] theorem volatilityBadge_key : volatilityBadge.key = "volatility" := rfl

@[simp] theorem priceChangeBadge_key (c p : ℚ) :
    (priceChangeBadge c p).key = "price-change" := rfl

@[simp] theorem targetBadge_priority : targetBadge.priority = 1 := rfl

@[simp] theorem dealBadge_priority : dealBadge.priority = 2 := rfl

@[simp] theorem priceChangeBadge_priority (c p : ℚ) :
    (priceChangeBadge c p).priority = 3 := rfl

@[simp] theorem volatilityBadge_priority : volatilityBadge.priority = 4 := rfl

theorem mem_targetReachedBadges {i : BadgeInput} {b : BadgeInfo}
    (hb : b ∈ targetReachedBadges i) : b = targetBadge := by
  cases h : i.targetPrice with
  | none => simp [targetReachedBadges, h] at hb
  | some t =>
    simp only [targetReachedBadges, h] at hb
    split_ifs at hb <;> simp_all

theorem mem_dealAlertBadges {i : BadgeInput} {b : BadgeInfo}
    (hb : b ∈ dealAlertBadges i) : b = dealBadge := by
  unfold dealAlertBadges at hb
  split_ifs at hb <;> simp_all

theorem mem_priceChangeBadges {i : BadgeInput} {b : BadgeInfo}
    (hb : b ∈ priceChangeBadges i) :
    ∃ p, i.previousPrice = some p ∧ b = priceChangeBadge i.currentPrice p := by
  cases h : i.previousPrice with
  | none => simp [priceChangeBadges, h] at hb
  | some p =>
    simp only [priceChangeBadges, h] at hb
    split_ifs at hb <;> simp_all

theorem mem_volatilityBadges {i : BadgeInput} {b : BadgeInfo}
    (hb : b ∈ volatilityBadges i) : b = volatilityBadge := by
  unfold volatilityBadges at hb
  split_ifs at hb <;> simp_all

theorem mem_emittedBadges {i : BadgeInput} {b : BadgeInfo} (hb : b ∈ emittedBadges i) :
    b ∈ targetReachedBadges i ∨ b ∈ dealAlertBadges i ∨
      b ∈ priceChangeBadges i ∨ b ∈ volatilityBadges i := by
  simpa [emittedBadges] using hb

theorem dealAlert_mem_iff (i : BadgeInput) :
    (∃ b ∈ emittedBadges i, b.key = "deal-alert") ↔
      3 ≤ i.priceHistory.length ∧ i.currentPrice ≤ avgRecentPrice i * (9 / 10) := by
  constructor
  · rintro ⟨b, hb, hk⟩
    rcases mem_emittedBadges hb with h | h | h | h
    · rw [mem_targetReachedBadges h] at hk; exact absurd hk (by decide)
    · unfold dealAlertBadges at h
      split_ifs at h with h1 h2
      · exact ⟨h1, h2⟩
      all_goals cases h
    · obtain ⟨p, _, rfl⟩ := mem_priceChangeBadges h
      rw [priceChangeBadge_key] at hk
      exact absurd hk (by decide)
    · rw [mem_volatilityBadges h] at hk; exact absurd hk (by decide)
  · rintro ⟨h1, h2⟩
    refine ⟨dealBadge, ?_, rfl⟩
    simp [emittedBadges, dealAlertBadges, h1, h2]

theorem priceChange_mem_iff (i : BadgeInput) :
    (∃ b ∈ emittedBadges i, b.key = "price-change") ↔
      ∃ p, i.previousPrice = some p ∧ p ≠ 0 ∧ p ≠ i.currentPrice := by
  constructor
  · rintro ⟨b, hb, hk⟩
    rcases mem_emittedBadges hb with h | h | h | h
    · rw [mem_targetReachedBadges h] at hk; exact absurd hk (by decide)
    · rw [mem_dealAlertBadges h] at hk; exact absurd hk (by decide)
    · obtain ⟨p, hp, rfl⟩ := mem_priceChangeBadges h
      simp only [priceChangeBadges, hp] at h
      split_ifs at h with hcond
      · exact ⟨p, hp, hcond⟩
      · cases h
    · rw [mem_volatilityBadges h] at hk; exact absurd hk (by decide)
  · rintro ⟨p, hp, hz, hne⟩
    refine ⟨priceChangeBadge i.currentPrice p, ?_, rfl⟩
    simp [emittedBadges, priceChangeBadges, hp, hz, hne]

theorem volatility_mem_iff (i : BadgeInput) :
    (∃ b ∈ emittedBadges i, b.key = "volatility") ↔
      7 ≤ i.priceHistory.length ∧
        volGuard (listMax (last7Prices i)) (listMin (last7Prices i)) = true := by
  constructor
  · rintro ⟨b, hb, hk⟩
    rcases mem_emittedBadges hb with h | h | h | h
    · rw [mem_targetReachedBadges h] at hk; exact absurd hk (by decide)
    · rw [mem_dealAlertBadges h] at hk; exact absurd hk (by decide)
    · obtain ⟨p, _, rfl⟩ := mem_priceChangeBadges h
      rw [priceChangeBadge_key] at hk
      exact absurd hk (by decide)
    · unfold volatilityBadges at h
      split_ifs at h with h1 h2
      · exact ⟨h1, h2⟩
      all_goals cases h
  · rintro ⟨h1, h2⟩
    refine ⟨volatilityBadge, ?_, rfl⟩
    simp [emittedBadges, volatilityBadges, h1, h2]

/-- C5. The Deal-alert badge (priority 2) is emitted iff the history has
at least 3 points and the current price is at most 0.9 times the
arithmetic mean of the last 5 (or fewer) points' prices; with history
`[100,100,100,100,100]` it fires for `currentPrice = 89` and not for
`currentPrice = 91`, and the gate makes it impossible to fire below 3
history points. -/
theorem deal_alert_spec :
    (∀ i : BadgeInput,
      (∃ b ∈ emittedBadges i, b.key = "deal-alert") ↔
        3 ≤ i.priceHistory.length ∧
          i.currentPrice ≤
            (((takeLast 5 i.priceHistory).map PricePoint.price).sum /
              (((takeLast 5 i.priceHistory).map PricePoint.price).length : ℚ)) * (9 / 10)) ∧
    (∃ b ∈ emittedBadges dealEx89, b.key = "deal-alert") ∧
    (¬ ∃ b ∈ emittedBadges dealEx91, b.key = "deal-alert") := by
  refine ⟨fun i => dealAlert_mem_iff i, ?_, ?_⟩
  · rw [dealAlert_mem_iff]
    constructor
    · norm_num [dealEx89]
    · norm_num [dealEx89, avgRecentPrice, recentPrices, takeLast]
  · rw [dealAlert_mem_iff]
    rintro ⟨-, h2⟩
    norm_num [dealEx91, avgRecentPrice, recentPrices, takeLast] at h2

/-- C6. The component sorts the emitted badges ascending by priority and
returns exactly the first `maxBadges` of them: the result is sorted by
priority, its length is `min maxBadges (number emitted)`, zero qualifying
badges render nothing (`null`), and with `maxBadges = 2` and all four
conditions qualifying exactly the priority-1 and priority-2 badges are
returned, in that order. -/
theorem badge_selection_spec :
    (∀ i : BadgeInput, (prioritizedBadges i).Pairwise badgeLE) ∧
    (∀ i : BadgeInput,
      (prioritizedBadges i).length = min i.maxBadges (emittedBadges i).length) ∧
    (∀ i : BadgeInput, emittedBadges i = [] → renderBadges i = none) ∧
    (∀ i : BadgeInput, ∀ p : ℚ, i.maxBadges = 2 →
      targetReachedBadges i = [targetBadge] →
      dealAlertBadges i = [dealBadge] →
      priceChangeBadges i = [priceChangeBadge i.currentPrice p] →
      volatilityBadges i = [volatilityBadge] →
      prioritizedBadges i = [targetBadge, dealBadge]) := by
  refine ⟨?_, ?_, ?_, ?_⟩
  · intro i
    exact List.Pairwise.sublist (List.take_sublist _ _)
      (List.sorted_insertionSort badgeLE _)
  · intro i
    simp [prioritizedBadges, List.length_take, List.length_insertionSort]
  · intro i h
    simp [renderBadges, prioritizedBadges, h]
  · intro i p hmax ht hd hp hv
    have he : emittedBadges i =
        [targetBadge, dealBadge, priceChangeBadge i.currentPrice p, volatilityBadge] := by
      simp [emittedBadges, ht, hd, hp, hv]
    have hs : List.Sorted badgeLE (emittedBadges i) := by
      rw [he]
      simp [List.pairwise_cons, badgeLE]
    rw [prioritizedBadges, hs.insertionSort_eq, he, hmax]
    rfl

/-- Witness for C6: at `selAllEx` all four conditions qualify and the
selection is the target and deal badges in that order; at `selNoneEx`
nothing qualifies and nothing is rendered. -/
theorem badge_selection_spec_witness :
    prioritizedBadges selAllEx = [targetBadge, dealBadge] ∧
      renderBadges selNoneEx = none := by
  constructor
  · refine badge_selection_spec.2.2.2 selAllEx 100 rfl ?_ ?_ ?_ ?_
    · norm_num [targetReachedBadges, selAllEx]
    · norm_num [dealAlertBadges, selAllEx, avgRecentPrice, recentPrices, takeLast]
    · norm_num [priceChangeBadges, selAllEx]
    · norm_num [volatilityBadges, selAllEx, last7Prices, takeLast, listMax, listMin,
        volGuard, max_def, min_def]
  · refine badge_selection_spec.2.2.1 selNoneEx ?_
    norm_num [emittedBadges, targetReachedBadges, dealAlertBadges, priceChangeBadges,
      volatilityBadges, selNoneEx]

/-- Counterexample for C7: `previousPrice = 0` is set and differs from
`currentPrice = 10`, yet no badge at all is emitted — JS truthiness
treats the `0` as unset, so the claimed iff fails at this input. -/
theorem price_change_zero_prev_cex :
    pcZeroEx.previousPrice = some 0 ∧
      pcZeroEx.currentPrice = 10 ∧
      emittedBadges pcZeroEx = [] := by
  refine ⟨rfl, rfl, ?_⟩
  norm_num [emittedBadges, targetReachedBadges, dealAlertBadges, priceChangeBadges,
    volatilityBadges, pcZeroEx]

/-- C7 (amended). The price-change badge (priority 3) is emitted iff
`previousPrice` is set, nonzero (JS truthiness) and differs from
`currentPrice`; its text is the percent change `(current - previous) /
previous × 100` rendered to one decimal, `+`-prefixed with unfavorable
(red) styling on an increase and unprefixed with favorable (green)
styling on a decrease; at (100 → 80) the text is exactly "-20.0%" with
green styling and at (100 → 120) exactly "+20.0%" with red styling. -/
theorem price_change_badge_spec :
    (∀ i : BadgeInput,
      (∃ b ∈ emittedBadges i, b.key = "price-change") ↔
        ∃ p, i.previousPrice = some p ∧ p ≠ 0 ∧ p ≠ i.currentPrice) ∧
    (∀ c p : ℚ, (priceChangeBadge c p).text =
      (if c - p < 0 then "" else "+") ++ toFixed1 ((c - p) / p * 100) ++ "%") ∧
    (∀ c p : ℚ, (priceChangeBadge c p).className =
      if c - p < 0 then "bg-green-100 text-green-800 border-green-300"
      else "bg-red-100 text-red-800 border-red-300") ∧
    ((priceChangeBadge 80 100).text = "-20.0%" ∧
      (priceChangeBadge 80 100).className =
        "bg-green-100 text-green-800 border-green-300") ∧
    ((priceChangeBadge 120 100).text = "+20.0%" ∧
      (priceChangeBadge 120 100).className =
        "bg-red-100 text-red-800 border-red-300") := by
  refine ⟨priceChange_mem_iff, ?_, ?_, ⟨?_, ?_⟩, ⟨?_, ?_⟩⟩
  · intro c p
    by_cases h : c - p < 0 <;> simp [priceChangeBadge, h]
  · intro c p
    by_cases h : c - p < 0 <;> simp [priceChangeBadge, h]
  · norm_num [priceChangeBadge, toFixed1, round_eq]
    rfl
  · norm_num [priceChangeBadge]
  · norm_num [priceChangeBadge, toFixed1, round_eq]
    rfl
  · norm_num [priceChangeBadge]

/-- C8. The volatility badge (priority 4) cannot fire below 7 history
points, and whenever the history has at least 7 points and the last-7
minimum is nonzero (so the claim's quotient is defined) it is emitted iff
`(max - min) / min × 100 > 15` over the last 7 points. -/
theorem volatility_badge_spec :
    (∀ i : BadgeInput, i.priceHistory.length < 7 →
      ¬ ∃ b ∈ emittedBadges i, b.key = "volatility") ∧
    (∀ i : BadgeInput, 7 ≤ i.priceHistory.length →
      listMin (last7Prices i) ≠ 0 →
      ((∃ b ∈ emittedBadges i, b.key = "volatility") ↔
        15 < (listMax (last7Prices i) - listMin (last7Prices i)) /
          listMin (last7Prices i) * 100)) := by
  constructor
  · intro i hlen h
    rw [volatility_mem_iff] at h
    exact absurd h.1 (by omega)
  · intro i h7 hmin
    rw [volatility_mem_iff]
    unfold volGuard
    rw [if_neg hmin]
    simp [h7, decide_eq_true_eq]

/-- Witness for C8: six swinging points emit nothing; seven points
swinging 100 → 130 (30% > 15%, minimum 100 ≠ 0) emit the badge. -/
theorem volatility_badge_spec_witness :
    (¬ ∃ b ∈ emittedBadges volEx6, b.key = "volatility") ∧
      (∃ b ∈ emittedBadges volEx7, b.key = "volatility") := by
  constructor
  · exact volatility_badge_spec.1 volEx6 (by norm_num [volEx6])
  · refine (volatility_badge_spec.2 volEx7 (by norm_num [volEx7]) ?_).mpr ?_
    · norm_num [volEx7, last7Prices, takeLast, listMin, min_def]
    · norm_num [volEx7, last7Prices, takeLast, listMax, listMin, max_def, min_def]

/-- Counterexample for C10: seven history points all at price 0 have
last-7 minimum 0, but the badge is not emitted (the JS expression is
`0/0 = NaN`, and `NaN > 15` is false, not `Infinity`): the emitted set at
this input is exactly the deal badge. -/
theorem volatility_zero_min_cex :
    7 ≤ volZeroAllEx.priceHistory.length ∧
      listMin (last7Prices volZeroAllEx) = 0 ∧
      emittedBadges volZeroAllEx = [dealBadge] := by
  refine ⟨by norm_num [volZeroAllEx], ?_, ?_⟩
  · norm_num [volZeroAllEx, last7Prices, takeLast, listMin, min_def]
  · norm_num [emittedBadges, targetReachedBadges, dealAlertBadges, priceChangeBadges,
      volatilityBadges, volZeroAllEx, avgRecentPrice, recentPrices, last7Prices,
      takeLast, listMax, listMin, volGuard, max_def, min_def]

/-- C10 (amended). When the history has at least 7 points and the last-7
minimum is 0, the unguarded division is reached and the badge is emitted
iff the last-7 maximum is positive (JS: `Infinity > 15` when `max > min`,
but `NaN > 15` is false when all seven prices are 0). -/
theorem volatility_zero_min_spec (i : BadgeInput) (h7 : 7 ≤ i.priceHistory.length)
    (hmin : listMin (last7Prices i) = 0) :
    (∃ b ∈ emittedBadges i, b.key = "volatility") ↔ 0 < listMax (last7Prices i) := by
  rw [volatility_mem_iff]
  unfold volGuard
  rw [if_pos hmin, hmin]
  simp [h7, decide_eq_true_eq]

/-- Witness for C10: seven points with minimum 0 and maximum 100 emit the
volatility badge. -/
theorem volatility_zero_min_spec_witness :
    ∃ b ∈ emittedBadges volZeroPosEx, b.key = "volatility" := by
  refine (volatility_zero_min_spec volZeroPosEx (by norm_num [volZeroPosEx]) ?_).mpr ?_
  · norm_num [volZeroPosEx, last7Prices, takeLast, listMin, min_def]
  · norm_num [volZeroPosEx, last7Prices, takeLast, listMax, max_def]

/-! ## Synchronizer: refresh -/

/-- C3. `refresh` on a user with zero wishlist rows fails with the
not-found error and returns the prior cache untouched: `.single()` on the
empty result errors before anything is written. -/
theorem refresh_no_wishlist_not_found (store : RemoteStore) (userId : String)
    (cache : LocalCache) (hu : ¬ userId = "")
    (h : store.wishlists.filter (fun w => decide (w.user_id = userId)) = []) :
    getWishlistData store userId cache = (.error .NotFoundError, cache) := by
  unfold getWishlistData
  rw [if_neg hu, h]
  rfl

/-- Witness for C3: the empty store has no wishlist for `u1`; refresh
fails with the not-found error and the (empty) cache is returned as
it was. -/
theorem refresh_no_wishlist_not_found_witness :
    getWishlistData ⟨[], [], []⟩ "u1" ⟨[], none⟩ =
      (.error .NotFoundError, ⟨[], none⟩) :=
  refresh_no_wishlist_not_found _ _ _ (by decide) rfl

theorem formatItem_price {store : RemoteStore} {row : WishlistItemRow} {it : Item}
    (h : formatItem store row = some it) : it.price = jsPriceField it.prices := by
  unfold formatItem at h
  cases hf : store.products.find? (fun p => decide (p.id = row.product_id)) with
  | none => rw [hf] at h; cases h
  | some p =>
    rw [hf] at h
    simp only [Option.map_some'] at h
    obtain rfl := Option.some.inj h
    rfl

theorem formatAll_mem {store : RemoteStore} :
    ∀ {rows : List WishlistItemRow} {items : List Item},
      formatAll store rows = some items → ∀ {it : Item}, it ∈ items →
        ∃ row, formatItem store row = some it := by
  intro rows
  induction rows with
  | nil =>
    intro items h it hm
    simp only [formatAll] at h
    obtain rfl := Option.some.inj h
    cases hm
  | cons r rs ih =>
    intro items h it hm
    simp only [formatAll] at h
    cases h1 : formatItem store r with
    | none => rw [h1] at h; cases h
    | some a =>
      cases h2 : formatAll store rs with
      | none => rw [h1, h2] at h; cases h
      | some as =>
        rw [h1, h2] at h
        obtain rfl := Option.some.inj h
        rcases List.mem_cons.mp hm with rfl | hm'
        · exact ⟨r, h1⟩
        · exact ih h2 hm'

/-- C2 (amended). Every item the refresh handler writes to the cache has
`price = prices?.[0]?.amount || null`: equal to the amount of the first
(most recent) entry of `prices` when that amount is nonzero, and `null`
when `prices` is empty or its first amount is 0 (JS `||` coalesces the
falsy amount `0` to `null`). -/
theorem refresh_price_field_spec (store : RemoteStore) (userId : String)
    (cache cache' : LocalCache)
    (h : getWishlistData store userId cache = (.ok (), cache'))
    (it : Item) (hm : it ∈ cache'.wishlistItems) :
    it.price = jsPriceField it.prices ∧
    (it.prices = [] → it.price = none) ∧
    (∀ e, it.prices.head? = some e → ¬ e.amount = 0 → it.price = some e.amount) ∧
    (∀ e, it.prices.head? = some e → e.amount = 0 → it.price = none) := by
  have hp : it.price = jsPriceField it.prices := by
    unfold getWishlistData at h
    split_ifs at h with hu
    · exact Except.noConfusion (congrArg Prod.fst h)
    cases hw : (store.wishlists.filter (fun w => decide (w.user_id = userId))).head? with
    | none =>
      rw [hw] at h
      exact Except.noConfusion (congrArg Prod.fst h)
    | some w =>
      rw [hw] at h
      dsimp only at h
      cases hf : formatAll store (List.insertionSort rowLE
          (store.wishlist_items.filter (fun r => decide (r.wishlist_id = w.id)))) with
      | none =>
        rw [hf] at h
        exact Except.noConfusion (congrArg Prod.fst h)
      | some items =>
        rw [hf] at h
        have hsnd := congrArg Prod.snd h
        dsimp only at hsnd
        rw [← hsnd] at hm
        dsimp only at hm
        obtain ⟨row, hrow⟩ := formatAll_mem hf hm
        exact formatItem_price hrow
  refine ⟨hp, ?_, ?_, ?_⟩
  · intro h0
    rw [hp, h0]
    rfl
  · intro e he hz
    rw [hp]
    unfold jsPriceField
    rw [he]
    dsimp only
    rw [if_neg hz]
  · intro e he hz
    rw [hp]
    unfold jsPriceField
    rw [he]
    dsimp only
    rw [if_pos hz]

/-- Witness for C2's amended statement: refreshing `fiveAmountStore`
writes exactly `fiveAmountItem`, whose price is the first entry's
amount 5. -/
theorem refresh_price_field_spec_witness :
    fiveAmountItem.price = jsPriceField fiveAmountItem.prices ∧
      fiveAmountItem.price = some 5 :=
  ⟨(refresh_price_field_spec fiveAmountStore "u1" ⟨[], none⟩
      ⟨[fiveAmountItem], some "w1"⟩ rfl fiveAmountItem (by simp)).1, rfl⟩

/-- Counterexample for C2: refreshing `zeroAmountStore` succeeds and
writes exactly `zeroAmountItem`, which has one `prices` entry yet
`price = none` — `price` is null on a nonempty history, refuting "null
exactly when the sequence is empty". -/
theorem refresh_zero_amount_cex :
    getWishlistData zeroAmountStore "u1" ⟨[], none⟩ =
      (.ok (), ⟨[zeroAmountItem], some "w1"⟩) ∧
      zeroAmountItem.prices.length = 1 ∧
      zeroAmountItem.price = none :=
  ⟨rfl, rfl, rfl⟩

/-! ## Synchronizer: delete -/

/-- C4. `deleteItem`: when the item is absent from the cache or its
`wishlist_item_id` is unresolvable (falsy), the result is the
missing-reference error with the store and cache unchanged and an empty
remote-call trace; when the id resolves and the remote delete fails, the
cache is unchanged (the delete was attempted remotely first); when the
remote delete succeeds, the membership row is removed remotely and only
then is the local entry filtered out. -/
theorem delete_item_spec (remoteOk : Bool) (store : RemoteStore) (items : List Item)
    (itemId : String) :
    (items.find? (fun it => decide (it.id = itemId)) = none →
      deleteItem remoteOk store items itemId = (.missingRef, store, items, [])) ∧
    (∀ it : Item, items.find? (fun it2 => decide (it2.id = itemId)) = some it →
      jsFalsyStr it.wishlist_item_id = true →
      deleteItem remoteOk store items itemId = (.missingRef, store, items, [])) ∧
    (∀ (it : Item) (wid : String),
      items.find? (fun it2 => decide (it2.id = itemId)) = some it →
      it.wishlist_item_id = some wid → ¬ wid = "" → remoteOk = false →
      deleteItem remoteOk store items itemId =
        (.remoteError, store, items, [.deleteWishlistItem wid])) ∧
    (∀ (it : Item) (wid : String),
      items.find? (fun it2 => decide (it2.id = itemId)) = some it →
      it.wishlist_item_id = some wid → ¬ wid = "" → remoteOk = true →
      deleteItem remoteOk store items itemId =
        (.ok,
          { store with wishlist_items :=
              store.wishlist_items.filter (fun r => decide (¬ r.id = wid)) },
          items.filter (fun i2 => decide (¬ i2.id = itemId)),
          [.deleteWishlistItem wid])) := by
  refine ⟨?_, ?_, ?_, ?_⟩
  · intro hf
    unfold deleteItem
    rw [hf]
  · intro it hf hfalsy
    unfold deleteItem
    rw [hf]
    dsimp only
    cases hw : it.wishlist_item_id with
    | none => rfl
    | some s =>
      rw [hw] at hfalsy
      have hs : s = "" := by simpa [jsFalsyStr] using hfalsy
      dsimp only
      rw [if_pos hs]
  · intro it wid hf hw hne hok
    unfold deleteItem
    rw [hf]
    dsimp only
    rw [hw]
    dsimp only
    rw [if_neg hne, hok]
    rfl
  · intro it wid hf hw hne hok
    unfold deleteItem
    rw [hf]
    dsimp only
    rw [hw]
    dsimp only
    rw [if_neg hne, hok]
    rfl

/-- Witness for C4: deleting `p1` (no `wishlist_item_id`) is refused with
no remote call and nothing changed; deleting `p2` removes the remote row
`wi2` and then the local entry. -/
theorem delete_item_spec_witness :
    deleteItem true delStore delItems "p1" = (.missingRef, delStore, delItems, []) ∧
      (deleteItem true delStore delItems "p2").1 = .ok ∧
      (deleteItem true delStore delItems "p2").2.1.wishlist_items = [] ∧
      (deleteItem true delStore delItems "p2").2.2.1 = [delItemNoRef] ∧
      (deleteItem true delStore delItems "p2").2.2.2 =
        [RemoteCall.deleteWishlistItem "wi2"] := by
  have h1 := (delete_item_spec true delStore delItems "p1").2.1 delItemNoRef rfl rfl
  have h4 := (delete_item_spec true delStore delItems "p2").2.2.2 delItemOk "wi2"
    rfl rfl (by decide) rfl
  refine ⟨h1, ?_, ?_, ?_, ?_⟩ <;> rw [h4] <;> rfl

/-! ## Synchronizer: add -/

theorem addCurrentPage_debounced (store : RemoteStore) (s : UIState) (now : Nat)
    (tab : Option (String × String)) (h : (now : ℤ) - (s.lastAddTime : ℤ) < 1000) :
    addCurrentPage store s now tab = (store, s, []) := by
  unfold addCurrentPage
  rw [if_pos h]

theorem addCurrentPage_lastAddTime (store : RemoteStore) (s : UIState) (now : Nat)
    (tab : Option (String × String))
    (h : ¬ (now : ℤ) - (s.lastAddTime : ℤ) < 1000) :
    ((addCurrentPage store s now tab).2.1).lastAddTime = now := by
  unfold addCurrentPage
  rw [if_neg h]
  split
  · rfl
  · split_ifs
    · rfl
    · split <;> rfl

/-- C9. A second `addCurrentPage` invocation within 1000ms of a first
(non-debounced) one is a no-op: the debounce guard fires, so the remote
store and the whole popup state are returned unchanged and the
remote-call trace of the second invocation is empty. -/
theorem add_debounce_second_noop (store : RemoteStore) (s : UIState) (t1 t2 : Nat)
    (tab1 tab2 : Option (String × String))
    (h1 : ¬ (t1 : ℤ) - (s.lastAddTime : ℤ) < 1000)
    (h2 : (t2 : ℤ) - (t1 : ℤ) < 1000) :
    addCurrentPage (addCurrentPage store s t1 tab1).1
        (addCurrentPage store s t1 tab1).2.1 t2 tab2 =
      ((addCurrentPage store s t1 tab1).1, (addCurrentPage store s t1 tab1).2.1, []) := by
  apply addCurrentPage_debounced
  rw [addCurrentPage_lastAddTime store s t1 tab1 h1]
  exact h2

/-- Witness for C9: a first add at t=2000 followed by one at t=2500 leaves
everything as the first call left it, with no remote calls. -/
theorem add_debounce_second_noop_witness :
    addCurrentPage (addCurrentPage ⟨[], [], []⟩ debEx 2000 none).1
        (addCurrentPage ⟨[], [], []⟩ debEx 2000 none).2.1 2500 none =
      ((addCurrentPage ⟨[], [], []⟩ debEx 2000 none).1,
        (addCurrentPage ⟨[], [], []⟩ debEx 2000 none).2.1, []) :=
  add_debounce_second_noop _ _ _ _ _ _ (by decide) (by decide)

/-- C1 (code evaluated at the failing input). Adding a page whose product
is already a member of the wishlist: the membership upsert merges the
duplicate instead of raising the unique-violation the source's
"already exists" branch expects, so the call succeeds with no error
message, the remote membership rows are unchanged (no second row), and a
duplicate optimistic entry is prepended to the previously empty local
cache — the spec's required `DuplicateItemError` never surfaces. -/
theorem add_duplicate_membership_eval :
    dupResult.1.wishlist_items = dupStore.wishlist_items ∧
      dupResult.2.1.errorMsg = none ∧
      dupState.items = [] ∧
      dupResult.2.1.items = [dupNewItem] ∧
      dupResult.2.2 = [RemoteCall.upsertProduct "Shoes" "https://s/p",
        RemoteCall.upsertWishlistItem "w1" "p1", RemoteCall.selectProduct "p1"] :=
  ⟨rfl, rfl, rfl, rfl, rfl⟩

end WishCdp
